import Mathlib

/-!
Verification of the health-monitoring core of the repository
(`backend/health_ai_engine.py` and `backend/health_coach.py`).

Modelling conventions:
* Python floats are modelled by `ℚ`.  All numeric literals appearing in the
  source (0.4, 15.3, 3.5, ...) are exact decimal fractions, so the rational
  model agrees with the float code except for sub-ulp rounding noise, on
  which no claim depends.
* `sqrt` values (acceleration magnitude in `_classify_activity`, `sdnn` and
  `rmssd` in `_calculate_hrv_advanced`) are represented by their squares,
  which are rational.  Every comparison the source performs on such a value
  compares it against a nonnegative constant, so `x < c` is replaced by the
  equivalent `x^2 < c^2` (both sides nonnegative).  The equivalence is
  proved once in `sq_lt_sq_iff_of_nonneg` and used for claim C6.
* The seeded `IsolationForest` (random_state=42) and the scipy spectral
  estimator are deterministic functions of the data they are given; they are
  modelled as an abstract `Config` of pure functions `mlPredict` (true =
  outlier, i.e. predict == -1) and `lfhf` (the LF/HF computation of lines
  297-306, returning none when scipy is unavailable or the estimate fails).
* Wall-clock reads (`time.time()`) are explicit inputs `tStart`, `tEnd`.
* Python `round(x, n)` (banker's rounding on binary floats) is modelled as
  nearest-integer rounding at `n` decimal digits; no claim depends on
  half-way behaviour.
* The source file `health_ai_engine.py` is translated in the configuration
  NUMPY_AVAILABLE = True, SKLEARN_AVAILABLE = True; the numpy-absent
  fallback branch of `_calculate_hrv_advanced` (lines 308-319), whose
  division `60000 / hr` can raise `ZeroDivisionError`, is modelled
  separately with `Except` (`calculateHrvFallback`).
-/

namespace HealthSpec

/-- Last `n` elements of a list (`l[-n:]` in Python). -/
def lastN (n : Nat) (l : List α) : List α := l.drop (l.length - n)

/-- `buffer.append(x)` followed by `buffer.pop(0)` when the capacity is
exceeded (`HealthAIEngine._update_buffers`, lines 229-239). -/
def pushCap (cap : Nat) (l : List α) (x : α) : List α :=
  let l2 := l ++ [x]
  if cap < l2.length then l2.drop 1 else l2

/-- Successive differences (`np.diff`, line 289). -/
def diffs : List ℚ → List ℚ
  | a :: b :: rest => (b - a) :: diffs (b :: rest)
  | _ => []

/-- Arithmetic mean. -/
def mean (l : List ℚ) : ℚ := l.sum / l.length

/-- Population variance (`np.std` squared, line 286). -/
def popVar (l : List ℚ) : ℚ :=
  let m := mean l
  mean (l.map fun x => (x - m) ^ 2)

/-- Python `round(x, 1)`. -/
def round1 (q : ℚ) : ℚ := (round (q * 10) : ℤ) / 10

/-- Python `round(x, 2)`. -/
def round2 (q : ℚ) : ℚ := (round (q * 100) : ℤ) / 100

/-- Python `round(x, 3)`. -/
def round3 (q : ℚ) : ℚ := (round (q * 1000) : ℤ) / 1000

/-- `ActivityType` enum (health_ai_engine.py lines 45-52). -/
inductive ActivityType where
  | resting
  | walking
  | light_exercise
  | moderate_exercise
  | intense_exercise
  | sleeping
  | unknown
deriving DecidableEq, Repr

/-- The string value of each `ActivityType` member. -/
def ActivityType.value : ActivityType → String
  | .resting => "resting"
  | .walking => "walking"
  | .light_exercise => "light_exercise"
  | .moderate_exercise => "moderate_exercise"
  | .intense_exercise => "intense_exercise"
  | .sleeping => "sleeping"
  | .unknown => "unknown"

/-- `HealthRiskLevel` enum (lines 55-59). -/
inductive HealthRiskLevel where
  | LOW
  | MODERATE
  | HIGH
  | CRITICAL
deriving DecidableEq, Repr

/-- The string value of each `HealthRiskLevel` member. -/
def HealthRiskLevel.value : HealthRiskLevel → String
  | .LOW => "LOW"
  | .MODERATE => "MODERATE"
  | .HIGH => "HIGH"
  | .CRITICAL => "CRITICAL"

/-- `HRVFeatures` dataclass (lines 62-69).  `sdnn` and `rmssd` are
represented by their squares (`sdnn_sq = sdnn^2`, `rmssd_sq = rmssd^2`),
which are rational; the source's 2-decimal rounding of the square roots is
not modelled (no claim reads those display values). -/
structure HRVFeatures where
  sdnn_sq : ℚ
  rmssd_sq : ℚ
  pnn50 : ℚ
  lf_hf : Option ℚ
  stress_index : ℚ
deriving DecidableEq, Repr

/-- `HRZone` dataclass (lines 72-77). -/
structure HRZone where
  zone : Int
  name : String
  hr_percent : ℚ
deriving DecidableEq, Repr

/-- The `self.baseline` dict (lines 136-141). -/
structure Baseline where
  resting_hr : Int
  max_hr : Int
  avg_steps_per_day : Int
  vo2_max : Option ℚ
deriving DecidableEq, Repr

/-- Mutable state of a `HealthAIEngine` instance. -/
structure EngineState where
  user_age : Int
  user_weight : ℚ
  max_hr : Int
  hr_buffer : List Int
  step_buffer : List Int
  accel_buffer : List (ℚ × ℚ × ℚ)
  anomaly_trained : Bool
  anomaly_train_data : List Int
  baseline : Baseline
deriving DecidableEq, Repr

/-- The deterministic capabilities the engine is constructed with: the
seeded IsolationForest (`mlPredict data hr = true` iff the forest fitted on
`data` classifies `hr` as an outlier) and the scipy LF/HF estimator of
lines 297-306 (`none` when scipy is unavailable or the estimate fails). -/
structure Config where
  mlPredict : List Int → Int → Bool
  lfhf : List ℚ → Option ℚ

/-- One sensor sample, the arguments of `process_realtime` (lines 157-165). -/
structure Sample where
  hr : Int
  steps : Int
  ax : ℚ
  ay : ℚ
  az : ℚ
  spo2 : Option Int
deriving DecidableEq, Repr

/-- `ProcessedHealthData` dataclass (lines 80-94). -/
structure ProcessedHealthData where
  timestamp : Int
  heart_rate : Int
  steps : Int
  activity : String
  hrv : Option HRVFeatures
  anomaly_detected : Bool
  fatigue_score : ℚ
  vo2_max : Option ℚ
  calories_burned : ℚ
  hr_zone : HRZone
  health_risk_level : String
  processing_time_ms : ℚ
deriving DecidableEq, Repr

/-- `HealthAIEngine.__init__` (lines 110-143): fresh engine with empty
buffers, untrained anomaly model and default baseline. -/
def engineInit (user_age : Int) (user_weight : ℚ) : EngineState :=
  { user_age := user_age
    user_weight := user_weight
    max_hr := 220 - user_age
    hr_buffer := []
    step_buffer := []
    accel_buffer := []
    anomaly_trained := false
    anomaly_train_data := []
    baseline :=
      { resting_hr := 70
        max_hr := 220 - user_age
        avg_steps_per_day := 8000
        vo2_max := none } }

/-- `HealthAIEngine._update_buffers` (lines 226-239). -/
def updateBuffers (st : EngineState) (hr steps : Int)
    (accel : ℚ × ℚ × ℚ) : EngineState :=
  { st with
    hr_buffer := pushCap 300 st.hr_buffer hr
    step_buffer := pushCap 60 st.step_buffer steps
    accel_buffer := pushCap 60 st.accel_buffer accel }

/-- Step rate (lines 253-255): newest minus oldest entry of the step
window when it holds at least two entries, 0 otherwise. -/
def stepRate (buf : List Int) : Int :=
  if 2 ≤ buf.length then buf.getLastD 0 - buf.headD 0 else 0

/-- The decision table of `_classify_activity` (lines 258-271) over the
squared acceleration magnitude (thresholds 1.5 and 2.0 squared). -/
def classifyTable (magSq : ℚ) (step_rate hr : Int) : ActivityType :=
  if magSq < 9/4 ∧ step_rate = 0 ∧ hr < 60 then .sleeping
  else if magSq < 4 ∧ step_rate < 5 then .resting
  else if step_rate < 60 ∧ hr < 100 then .walking
  else if hr < 120 then .light_exercise
  else if hr < 150 then .moderate_exercise
  else if 150 ≤ hr then .intense_exercise
  else .unknown

/-- `HealthAIEngine._classify_activity` (lines 241-271). -/
def classifyActivity (st : EngineState) (hr : Int)
    (ax ay az : ℚ) : ActivityType :=
  classifyTable (ax ^ 2 + ay ^ 2 + az ^ 2) (stepRate st.step_buffer) hr

/-- `HealthAIEngine._calculate_stress_index` (lines 332-366), with the
`sdnn` and `rmssd` thresholds squared (all are nonnegative). -/
def calcStressIndex (sdnnSq rmssdSq : ℚ) (lfhf : Option ℚ) : ℚ :=
  let s1 : ℚ := 50 +
    (if sdnnSq < 900 then 25
     else if sdnnSq < 2500 then 15
     else if 10000 < sdnnSq then -15
     else if 4900 < sdnnSq then -10
     else 0)
  let s2 : ℚ := s1 +
    (if rmssdSq < 400 then 20
     else if rmssdSq < 900 then 10
     else if 3600 < rmssdSq then -10
     else 0)
  let s3 : ℚ := s2 +
    (match lfhf with
     | some r => if 3 < r then 15 else if 2 < r then 10 else if r < 1 then -5 else 0
     | none => 0)
  max 0 (min 100 s3)

/-- `HealthAIEngine._calculate_hrv_advanced` (lines 273-330), numpy branch.
Rational division is total (`60000 / 0 = 0` here, `inf` in numpy); no
theorem below depends on the HRV values at a zero heart rate.  `pnn50` and
`stress_index` are rounded to 2 decimals as in lines 327-329. -/
def calculateHrv (cfg : Config) (buf : List Int) : Option HRVFeatures :=
  if buf.length < 60 then none
  else
    let hr_series := lastN 60 buf
    let rr_intervals := hr_series.map fun h => 60000 / (h : ℚ)
    let sdnnSq := popVar rr_intervals
    let diff_rr := diffs rr_intervals
    let rmssdSq := mean (diff_rr.map fun d => d ^ 2)
    let pnn50 := ((diff_rr.countP fun d => 50 < |d|) : ℚ) / diff_rr.length * 100
    let lfhf := cfg.lfhf rr_intervals
    let stress := calcStressIndex sdnnSq rmssdSq lfhf
    some
      { sdnn_sq := sdnnSq
        rmssd_sq := rmssdSq
        pnn50 := round2 pnn50
        lf_hf := lfhf.map round2
        stress_index := round2 stress }

/-- `spo2 is not None and spo2 < thr` (lines 378, 533, 540). -/
def spo2Below (thr : Int) : Option Int → Bool
  | some s => decide (s < thr)
  | none => false

/-- `hrv and hrv.stress_index > thr` (lines 381, 544). -/
def stressAbove (thr : ℚ) : Option HRVFeatures → Bool
  | some h => decide (thr < h.stress_index)
  | none => false

/-- `HealthAIEngine._detect_health_anomaly` (lines 368-405).  Returns the
flag together with the possibly updated state: the lazy training step
(lines 386-394) fires only when no rule-based early return was taken. -/
def detectHealthAnomaly (cfg : Config) (st : EngineState) (hr : Int)
    (hrv : Option HRVFeatures) (spo2 : Option Int) : Bool × EngineState :=
  if hr < 40 ∨ 200 < hr then (true, st)
  else if spo2Below 90 spo2 then (true, st)
  else if stressAbove 85 hrv then (true, st)
  else if 30 ≤ st.hr_buffer.length then
    let st2 :=
      if ¬ st.anomaly_trained ∧ 100 ≤ st.hr_buffer.length then
        { st with anomaly_trained := true
                  anomaly_train_data := lastN 100 st.hr_buffer }
      else st
    (st2.anomaly_trained && cfg.mlPredict st2.anomaly_train_data hr, st2)
  else (false, st)

/-- `HealthAIEngine._predict_fatigue` (lines 407-440). -/
def predictFatigue (st : EngineState) (hr : Int)
    (hrv : Option HRVFeatures) (activity : ActivityType) : ℚ :=
  let resting_hr := st.baseline.resting_hr
  let max_hr := st.baseline.max_hr
  let hr_reserve_used :=
    ((hr : ℚ) - resting_hr) / ((max_hr : ℚ) - resting_hr)
  let hr_reserve_used := max 0 (min 1 hr_reserve_used)
  let fatigue := hr_reserve_used * (4/10)
  let fatigue := fatigue +
    (match hrv with
     | some h =>
        (if h.rmssd_sq < 400 then 25/100
         else if h.rmssd_sq < 900 then 15/100
         else 0) + h.stress_index / 100 * (2/10)
     | none => 0)
  let fatigue := fatigue +
    (if activity = .intense_exercise ∨ activity = .moderate_exercise then 1/10
     else if activity = .resting then -(5/100)
     else 0)
  max 0 (min 1 fatigue)

/-- `HealthAIEngine._estimate_vo2max` (lines 442-466).  Returns the
estimate together with the possibly updated state (the baseline `vo2_max`
is written exactly when the estimate lies strictly between 20 and 80). -/
def estimateVo2max (st : EngineState) (hr : Int) (activity : ActivityType)
    (_steps : Int) : Option ℚ × EngineState :=
  if ¬ (activity = .moderate_exercise ∨ activity = .intense_exercise) then
    (st.baseline.vo2_max, st)
  else
    let resting_hr := st.baseline.resting_hr
    let max_hr := st.baseline.max_hr
    if 0 < resting_hr ∧ resting_hr < hr then
      let hr_ratio := (max_hr : ℚ) / (resting_hr : ℚ)
      let vo2 := (153/10) * hr_ratio
      let st2 :=
        if 20 < vo2 ∧ vo2 < 80 then
          { st with baseline := { st.baseline with vo2_max := some vo2 } }
        else st
      (some vo2, st2)
    else (none, st)

/-- The MET table of `_calculate_calories_advanced` (lines 475-485). -/
def metOf : ActivityType → ℚ
  | .resting => 1
  | .sleeping => 9/10
  | .walking => 35/10
  | .light_exercise => 5
  | .moderate_exercise => 7
  | .intense_exercise => 10
  | .unknown => 2

/-- `HealthAIEngine._calculate_calories_advanced` (lines 468-501).  The
Python truthiness test `if vo2_max and vo2_max > 40` is `v ≠ 0 ∧ 40 < v`. -/
def calcCalories (st : EngineState) (hr : Int) (activity : ActivityType)
    (vo2_max : Option ℚ) : ℚ :=
  let met := metOf activity
  let calories_per_min := met * st.user_weight * (35/10) / 200
  let hr_factor : ℚ := if 70 < hr then 1 + ((hr : ℚ) - 70) / 150 else 1
  let vo2_factor : ℚ :=
    match vo2_max with
    | some v => if v ≠ 0 ∧ 40 < v then 1 + (v - 40) / 100 else 1
    | none => 1
  calories_per_min * hr_factor * vo2_factor

/-- `HealthAIEngine._get_hr_zone` (lines 503-517). -/
def getHrZone (st : EngineState) (hr : Int) : HRZone :=
  let max_hr := st.baseline.max_hr
  let hr_percent := (hr : ℚ) / (max_hr : ℚ) * 100
  if hr_percent < 50 then
    { zone := 1, name := "พักผ่อน (Rest)", hr_percent := hr_percent }
  else if hr_percent < 60 then
    { zone := 2, name := "เผาผลาญไขมัน (Fat Burn)", hr_percent := hr_percent }
  else if hr_percent < 70 then
    { zone := 3, name := "คาร์ดิโอ (Cardio)", hr_percent := hr_percent }
  else if hr_percent < 85 then
    { zone := 4, name := "ประสิทธิภาพสูงสุด (Peak)", hr_percent := hr_percent }
  else
    { zone := 5, name := "ความเข้มสูงสุด (Max)", hr_percent := hr_percent }

/-- `HealthAIEngine._assess_health_risk` (lines 519-550). -/
def assessHealthRisk (hr : Int) (hrv : Option HRVFeatures)
    (is_anomaly : Bool) (spo2 : Option Int) : HealthRiskLevel :=
  if is_anomaly then .HIGH
  else if 190 < hr ∨ hr < 40 then .CRITICAL
  else if spo2Below 88 spo2 then .CRITICAL
  else if 180 < hr ∨ hr < 45 then .HIGH
  else if spo2Below 92 spo2 then .HIGH
  else if stressAbove 70 hrv then .MODERATE
  else if 160 < hr then .MODERATE
  else .LOW

/-- `HealthAIEngine.process_realtime` (lines 157-224).  `tStart` and
`tEnd` are the two `time.time()` reads (lines 178 and 209). -/
def processRealtime (cfg : Config) (st : EngineState) (tStart tEnd : ℚ)
    (s : Sample) : ProcessedHealthData × EngineState :=
  let timestamp : Int := ⌊tStart⌋
  let st1 := updateBuffers st s.hr s.steps (s.ax, s.ay, s.az)
  let activity := classifyActivity st1 s.hr s.ax s.ay s.az
  let hrv_features := calculateHrv cfg st1.hr_buffer
  let res := detectHealthAnomaly cfg st1 s.hr hrv_features s.spo2
  let is_anomaly := res.1
  let st2 := res.2
  let fatigue_score := predictFatigue st2 s.hr hrv_features activity
  let res2 := estimateVo2max st2 s.hr activity s.steps
  let vo2_max := res2.1
  let st3 := res2.2
  let calories := calcCalories st3 s.hr activity vo2_max
  let hr_zone := getHrZone st3 s.hr
  let health_risk := assessHealthRisk s.hr hrv_features is_anomaly s.spo2
  ( { timestamp := timestamp
      heart_rate := s.hr
      steps := s.steps
      activity := activity.value
      hrv := hrv_features
      anomaly_detected := is_anomaly
      fatigue_score := round3 fatigue_score
      vo2_max := (match vo2_max with
        | some v => if v ≠ 0 then some (round1 v) else none
        | none => none)
      calories_burned := round2 calories
      hr_zone := hr_zone
      health_risk_level := health_risk.value
      processing_time_ms := round2 ((tEnd - tStart) * 1000) },
    st3 )

/-- One pipeline tick: a sample together with its two clock readings. -/
structure Tick where
  tStart : ℚ
  tEnd : ℚ
  sample : Sample
deriving DecidableEq, Repr

/-- Fold `process_realtime` over a tick sequence, collecting outputs. -/
def runPipeline (cfg : Config) (st : EngineState) :
    List Tick → List ProcessedHealthData
  | [] => []
  | t :: ts =>
    let r := processRealtime cfg st t.tStart t.tEnd t.sample
    r.1 :: runPipeline cfg r.2 ts

/-- Final engine state after a tick sequence. -/
def runState (cfg : Config) (st : EngineState) : List Tick → EngineState
  | [] => st
  | t :: ts => runState cfg (processRealtime cfg st t.tStart t.tEnd t.sample).2 ts

/-! ### The numpy-absent fallback branch of `_calculate_hrv_advanced`

Lines 308-319: plain Python arithmetic, where `60000 / hr` raises
`ZeroDivisionError` when `hr = 0`.  Fallible division is modelled with
`Except`. -/

/-- Python `/` on numbers: raises `ZeroDivisionError` on a zero divisor. -/
def pyDiv (a b : ℚ) : Except String ℚ :=
  if b = 0 then Except.error "ZeroDivisionError" else Except.ok (a / b)

/-- `HealthAIEngine._calculate_hrv_advanced`, fallback branch (lines
273-276 and 308-330), in the configuration NUMPY_AVAILABLE = False.
`sdnn` and `rmssd` are again represented by their squares; `lf_hf_ratio`
is `None` on this branch (line 319). -/
def calculateHrvFallback (buf : List Int) :
    Except String (Option HRVFeatures) := do
  if buf.length < 60 then
    return none
  else
    let hr_series := lastN 60 buf
    let rr_intervals ← hr_series.mapM fun h => pyDiv 60000 (h : ℚ)
    let mean_rr ← pyDiv rr_intervals.sum rr_intervals.length
    let variance ←
      pyDiv ((rr_intervals.map fun rr => (rr - mean_rr) ^ 2).sum)
        rr_intervals.length
    let sdnnSq := variance
    let diff_rr := diffs rr_intervals
    let rmssdSq ← pyDiv ((diff_rr.map fun d => d ^ 2).sum) diff_rr.length
    let pnn50c ← pyDiv ((diff_rr.countP fun d => 50 < |d|) : ℚ) diff_rr.length
    let pnn50 := pnn50c * 100
    let stress := calcStressIndex sdnnSq rmssdSq none
    return some
      { sdnn_sq := sdnnSq
        rmssd_sq := rmssdSq
        pnn50 := round2 pnn50
        lf_hf := none
        stress_index := round2 stress }

/-! ### Health Coach Engine (`backend/health_coach.py`)

The decision layer is modelled per user: the source keys
`recent_decisions` and `user_baselines` by `user_id` and every operation
of one call touches only the entries of the one `user_id` passed in, so a
single user's slice is a faithful projection.  `Decision.message`,
`message_en`, `data` and `notification_channels` carry no control flow
(in particular `_is_duplicate`, line 373, compares only `action` and
`timestamp`), so the model keeps `action`, `priority` and `timestamp`.
`time.time()` is the explicit input `now`, used both for the fresh
decisions' timestamps (`Decision.__post_init__`) and for the cooldown
comparisons. -/

/-- `ActionType` enum (health_coach.py lines 31-36). -/
inductive ActionType where
  | ALERT
  | RECOMMENDATION
  | ADJUST_PLAN
  | NUTRITION
  | WORKOUT_SUMMARY
deriving DecidableEq, Repr

/-- `Decision` dataclass (lines 39-57), restricted to the fields that
carry control flow. -/
structure Decision where
  action : ActionType
  priority : String
  timestamp : ℚ
deriving DecidableEq, Repr

/-- The fields of the `processed_data` dict that `make_decisions` and its
handlers read (the full output of `HealthAIEngine.process_realtime`). -/
structure ProcData where
  heart_rate : Int
  anomaly_detected : Bool
  health_risk_level : String
  fatigue_score : ℚ
  hrv : Option HRVFeatures
  activity : String
  calories_burned : ℚ
  vo2_max : Option ℚ
  hr_zone_zone : Int
deriving DecidableEq, Repr

/-- One user's slice of the mutable state of `HealthCoachEngine`:
`recent_decisions[user_id]` and `user_baselines[user_id]["vo2_max"]`. -/
structure CoachState where
  history : List Decision
  baseline_vo2 : Option ℚ
deriving DecidableEq, Repr

/-- A fresh coach state for a user (lines 80-83). -/
def coachInit : CoachState := { history := [], baseline_vo2 := none }

/-- `decision_cooldown` (line 84). -/
def decisionCooldown : ℚ := 60

/-- `HealthCoachEngine._is_duplicate` (lines 366-377). -/
def isDuplicate (hist : List Decision) (d : Decision) (now : ℚ) : Bool :=
  hist.any fun h =>
    h.action = d.action ∧ now - h.timestamp < decisionCooldown

/-- `HealthCoachEngine._clean_old_decisions` (lines 379-388). -/
def cleanOldDecisions (now : ℚ) (hist : List Decision) : List Decision :=
  hist.filter fun d => now - d.timestamp < decisionCooldown * 2

/-- `HealthCoachEngine._handle_anomaly` (lines 168-197): always returns a
decision; priority scaled to the risk level. -/
def handleAnomaly (now : ℚ) (pd : ProcData) : Decision :=
  let pr :=
    if pd.health_risk_level = "CRITICAL" then "CRITICAL"
    else if pd.health_risk_level = "HIGH" then "HIGH"
    else "NORMAL"
  { action := .ALERT, priority := pr, timestamp := now }

/-- `HealthCoachEngine._handle_fatigue` (lines 199-229); thresholds
`fatigue_critical = 0.85`, `fatigue_warning = 0.7` (lines 88-89). -/
def handleFatigue (now : ℚ) (fatigue : ℚ) : Option Decision :=
  if 85/100 < fatigue then
    some { action := .RECOMMENDATION, priority := "HIGH", timestamp := now }
  else if 7/10 < fatigue then
    some { action := .RECOMMENDATION, priority := "NORMAL", timestamp := now }
  else none

/-- `HealthCoachEngine._handle_stress` (lines 231-266); thresholds
`stress_critical = 80`, `stress_warning = 60` (lines 90-91). -/
def handleStress (now : ℚ) (pd : ProcData) : Option Decision :=
  match pd.hrv with
  | none => none
  | some hrv =>
    if ¬ (pd.activity = "moderate_exercise" ∨ pd.activity = "intense_exercise")
    then none
    else if 80 < hrv.stress_index then
      some { action := .RECOMMENDATION, priority := "HIGH", timestamp := now }
    else if 60 < hrv.stress_index then
      some { action := .RECOMMENDATION, priority := "LOW", timestamp := now }
    else none

/-- `HealthCoachEngine._handle_vo2_changes` (lines 268-302).  Python
truthiness: a reading or baseline equal to `0.0` is treated as absent.
Returns the candidate decision and the updated baseline. -/
def handleVo2Changes (now : ℚ) (pd : ProcData) (st : CoachState) :
    Option Decision × CoachState :=
  match pd.vo2_max with
  | none => (none, st)
  | some v =>
    if v = 0 then (none, st)
    else
      match st.baseline_vo2 with
      | none => (none, { st with baseline_vo2 := some v })
      | some bv =>
        if bv = 0 then (none, { st with baseline_vo2 := some v })
        else if v < bv * (1 - 1/10) then
          (some { action := .ADJUST_PLAN, priority := "LOW", timestamp := now },
           st)
        else if bv * (105/100) < v then
          (none, { st with baseline_vo2 := some v })
        else (none, st)

/-- `HealthCoachEngine._handle_nutrition_recommendation` (lines 304-337). -/
def handleNutrition (now : ℚ) (pd : ProcData) : Option Decision :=
  if pd.activity = "moderate_exercise" ∨ pd.activity = "intense_exercise" then
    some { action := .NUTRITION, priority := "LOW", timestamp := now }
  else none

/-- `HealthCoachEngine._handle_hr_zone` (lines 339-352). -/
def handleHrZone (now : ℚ) (pd : ProcData) : Option Decision :=
  if 5 ≤ pd.hr_zone_zone then
    some { action := .RECOMMENDATION, priority := "NORMAL", timestamp := now }
  else none

/-- Append a candidate decision after the `_is_duplicate` check (pattern
of lines 131-132, 137-138, 142-143, 160-161). -/
def addChecked (hist : List Decision) (now : ℚ) (ds : List Decision)
    (c : Option Decision) : List Decision :=
  match c with
  | some d => if isDuplicate hist d now then ds else ds ++ [d]
  | none => ds

/-- Append a candidate decision without any duplicate check (pattern of
lines 147-148 and 155-156). -/
def addUnchecked (ds : List Decision) (c : Option Decision) : List Decision :=
  match c with
  | some d => ds ++ [d]
  | none => ds

/-- `HealthCoachEngine.make_decisions` (lines 102-166) for one user:
prune the history, run the six handlers in order (anomaly, fatigue,
stress, VO2, nutrition, HR zone; the VO2 and nutrition candidates are
appended without a duplicate check), then extend the history with the
emitted batch.  Returns the batch and the new state. -/
def makeDecisions (now : ℚ) (pd : ProcData) (st : CoachState) :
    List Decision × CoachState :=
  let hist := cleanOldDecisions now st.history
  let ds1 := addChecked hist now []
    (if pd.anomaly_detected then some (handleAnomaly now pd) else none)
  let ds2 := addChecked hist now ds1 (handleFatigue now pd.fatigue_score)
  let ds3 := addChecked hist now ds2 (handleStress now pd)
  let vr := handleVo2Changes now pd { st with history := hist }
  let ds4 := addUnchecked ds3 vr.1
  let ds5 := addUnchecked ds4
    (if 200 < pd.calories_burned then handleNutrition now pd else none)
  let ds6 := addChecked hist now ds5 (handleHrZone now pd)
  (ds6, { vr.2 with history := hist ++ ds6 })

/-! ### Spec-side definitions used for refinement comparisons -/

/-- The activity decision table as §4.2 of the spec words it, over the
(unsquared) acceleration magnitude. -/
def classifyTableSpec (mag : ℚ) (step_rate hr : Int) : ActivityType :=
  if mag < 3/2 ∧ step_rate = 0 ∧ hr < 60 then .sleeping
  else if mag < 2 ∧ step_rate < 5 then .resting
  else if step_rate < 60 ∧ hr < 100 then .walking
  else if hr < 120 then .light_exercise
  else if hr < 150 then .moderate_exercise
  else if 150 ≤ hr then .intense_exercise
  else .unknown

/-! ### Concrete instances used by witnesses and counterexamples -/

/-- A concrete capability configuration: untrained-style outlier model that
never flags, no spectral estimator (the SCIPY_AVAILABLE = False setup). -/
def cfg0 : Config := { mlPredict := fun _ _ => false, lfhf := fun _ => none }

/-- The §8 scenario sample: heart rate fixed at 205 BPM, device at rest. -/
def sample205 : Sample :=
  { hr := 205, steps := 0, ax := 0, ay := 0, az := 98/10, spo2 := none }

/-- A tick with heart rate 0 (degenerate input of §7). -/
def tick0 : Tick :=
  { tStart := 0, tEnd := 0,
    sample := { hr := 0, steps := 0, ax := 0, ay := 0, az := 98/10, spo2 := none } }

/-- An ordinary resting tick. -/
def tickA : Tick :=
  { tStart := 100, tEnd := 100 + 1/100,
    sample := { hr := 72, steps := 10, ax := 0, ay := 0, az := 98/10,
                spo2 := some 97 } }

/-- Processed data triggering the fatigue, stress and HR-zone handlers in
one call (high fatigue, stress 85 during intense exercise, zone 5). -/
def pdC : ProcData :=
  { heart_rate := 150, anomaly_detected := false, health_risk_level := "LOW",
    fatigue_score := 9/10,
    hrv := some { sdnn_sq := 0, rmssd_sq := 0, pnn50 := 0, lf_hf := none,
                  stress_index := 85 },
    activity := "intense_exercise", calories_burned := 0, vo2_max := none,
    hr_zone_zone := 5 }

/-- Processed data triggering only the fatigue handler. -/
def pdW : ProcData :=
  { heart_rate := 80, anomaly_detected := false, health_risk_level := "LOW",
    fatigue_score := 9/10, hrv := none, activity := "resting",
    calories_burned := 0, vo2_max := none, hr_zone_zone := 1 }

/-- A coach state whose history holds one RECOMMENDATION aged 70 s at
`now = 1000` (outside the 60 s cooldown, inside the 120 s pruning span). -/
def stW : CoachState :=
  { history := [{ action := ActionType.RECOMMENDATION, priority := "HIGH",
                  timestamp := 930 }],
    baseline_vo2 := none }

/-- The decision the fatigue handler emits at `now = 1000` on `pdW`. -/
def dW : Decision :=
  { action := ActionType.RECOMMENDATION, priority := "HIGH", timestamp := 1000 }

/-! ### Helper lemmas -/

lemma sq_lt_sq_iff_of_nonneg {a b : ℚ} (ha : 0 ≤ a) (hb : 0 ≤ b) :
    a ^ 2 < b ^ 2 ↔ a < b :=
  ⟨fun h => lt_of_pow_lt_pow_left₀ 2 hb h,
   fun h => pow_lt_pow_left₀ h ha (by norm_num)⟩

@[simp]
lemma lastN_nil (cap : Nat) : lastN cap ([] : List α) = [] := by
  simp [lastN]

lemma length_lastN (cap : Nat) (l : List α) : (lastN cap l).length ≤ cap := by
  simp only [lastN, List.length_drop]
  omega

lemma pushCap_lastN (cap : Nat) (ys : List α) (x : α) :
    pushCap cap (lastN cap ys) x = lastN cap (ys ++ [x]) := by
  unfold pushCap lastN
  rcases le_or_lt cap ys.length with h | h
  · rw [if_pos (by
      simp only [List.length_append, List.length_drop, List.length_cons,
        List.length_nil]
      omega)]
    rw [List.drop_append_eq_append_drop, List.drop_drop,
        List.drop_append_eq_append_drop]
    simp only [List.length_drop, List.length_append, List.length_cons,
      List.length_nil]
    congr 2
    · omega
    · omega
  · have h0 : ys.length - cap = 0 := by omega
    rw [h0, List.drop_zero,
        if_neg (by
          simp only [List.length_append, List.length_cons, List.length_nil]
          omega)]
    have h1 : (ys ++ [x]).length - cap = 0 := by
      simp only [List.length_append, List.length_cons, List.length_nil]
      omega
    rw [h1, List.drop_zero]

lemma foldl_pushCap_lastN (cap : Nat) (xs : List α) :
    ∀ ys : List α, xs.foldl (pushCap cap) (lastN cap ys) = lastN cap (ys ++ xs) := by
  induction xs with
  | nil => intro ys; simp
  | cons x xs ih =>
    intro ys
    simp only [List.foldl_cons, pushCap_lastN]
    rw [ih (ys ++ [x])]
    simp

lemma foldl_pushCap_nil (cap : Nat) (xs : List α) :
    xs.foldl (pushCap cap) [] = lastN cap xs := by
  have h := foldl_pushCap_lastN cap xs []
  rw [lastN_nil] at h
  simpa using h

lemma detect_preserves (cfg : Config) (st : EngineState) (hr : Int)
    (hrv : Option HRVFeatures) (spo2 : Option Int) :
    (detectHealthAnomaly cfg st hr hrv spo2).2.hr_buffer = st.hr_buffer ∧
    (detectHealthAnomaly cfg st hr hrv spo2).2.step_buffer = st.step_buffer ∧
    (detectHealthAnomaly cfg st hr hrv spo2).2.accel_buffer = st.accel_buffer ∧
    (detectHealthAnomaly cfg st hr hrv spo2).2.user_age = st.user_age ∧
    (detectHealthAnomaly cfg st hr hrv spo2).2.user_weight = st.user_weight ∧
    (detectHealthAnomaly cfg st hr hrv spo2).2.max_hr = st.max_hr ∧
    (detectHealthAnomaly cfg st hr hrv spo2).2.baseline = st.baseline := by
  unfold detectHealthAnomaly
  split_ifs <;> simp_all

lemma vo2_preserves (st : EngineState) (hr : Int) (act : ActivityType)
    (steps : Int) :
    (estimateVo2max st hr act steps).2.hr_buffer = st.hr_buffer ∧
    (estimateVo2max st hr act steps).2.step_buffer = st.step_buffer ∧
    (estimateVo2max st hr act steps).2.accel_buffer = st.accel_buffer ∧
    (estimateVo2max st hr act steps).2.user_age = st.user_age ∧
    (estimateVo2max st hr act steps).2.user_weight = st.user_weight ∧
    (estimateVo2max st hr act steps).2.max_hr = st.max_hr ∧
    (estimateVo2max st hr act steps).2.anomaly_trained = st.anomaly_trained ∧
    (estimateVo2max st hr act steps).2.baseline.resting_hr
      = st.baseline.resting_hr ∧
    (estimateVo2max st hr act steps).2.baseline.max_hr = st.baseline.max_hr ∧
    (estimateVo2max st hr act steps).2.baseline.avg_steps_per_day
      = st.baseline.avg_steps_per_day := by
  unfold estimateVo2max
  dsimp only
  split_ifs <;> simp

lemma process_buffers (cfg : Config) (st : EngineState) (t1 t2 : ℚ)
    (s : Sample) :
    (processRealtime cfg st t1 t2 s).2.hr_buffer
      = pushCap 300 st.hr_buffer s.hr ∧
    (processRealtime cfg st t1 t2 s).2.step_buffer
      = pushCap 60 st.step_buffer s.steps ∧
    (processRealtime cfg st t1 t2 s).2.accel_buffer
      = pushCap 60 st.accel_buffer (s.ax, s.ay, s.az) := by
  unfold processRealtime
  dsimp only
  have h1 := detect_preserves cfg (updateBuffers st s.hr s.steps (s.ax, s.ay, s.az))
    s.hr (calculateHrv cfg (updateBuffers st s.hr s.steps (s.ax, s.ay, s.az)).hr_buffer)
    s.spo2
  have h2 := vo2_preserves
    (detectHealthAnomaly cfg (updateBuffers st s.hr s.steps (s.ax, s.ay, s.az))
      s.hr (calculateHrv cfg (updateBuffers st s.hr s.steps (s.ax, s.ay, s.az)).hr_buffer)
      s.spo2).2
    s.hr
    (classifyActivity (updateBuffers st s.hr s.steps (s.ax, s.ay, s.az)) s.hr s.ax s.ay s.az)
    s.steps
  refine ⟨?_, ?_, ?_⟩
  · rw [h2.1, h1.1]; rfl
  · rw [h2.2.1, h1.2.1]; rfl
  · rw [h2.2.2.1, h1.2.2.1]; rfl

lemma runState_buffers (cfg : Config) (ts : List Tick) :
    ∀ st : EngineState,
    (runState cfg st ts).hr_buffer
        = (ts.map fun t => t.sample.hr).foldl (pushCap 300) st.hr_buffer ∧
    (runState cfg st ts).step_buffer
        = (ts.map fun t => t.sample.steps).foldl (pushCap 60) st.step_buffer ∧
    (runState cfg st ts).accel_buffer
        = (ts.map fun t => (t.sample.ax, t.sample.ay, t.sample.az)).foldl
            (pushCap 60) st.accel_buffer := by
  induction ts with
  | nil => intro st; exact ⟨rfl, rfl, rfl⟩
  | cons t ts ih =>
    intro st
    obtain ⟨ph, ps, pa⟩ :=
      process_buffers cfg st t.tStart t.tEnd t.sample
    obtain ⟨ihh, ihs, iha⟩ :=
      ih (processRealtime cfg st t.tStart t.tEnd t.sample).2
    refine ⟨?_, ?_, ?_⟩
    · rw [show runState cfg st (t :: ts)
          = runState cfg (processRealtime cfg st t.tStart t.tEnd t.sample).2 ts
          from rfl, ihh, ph]
      rfl
    · rw [show runState cfg st (t :: ts)
          = runState cfg (processRealtime cfg st t.tStart t.tEnd t.sample).2 ts
          from rfl, ihs, ps]
      rfl
    · rw [show runState cfg st (t :: ts)
          = runState cfg (processRealtime cfg st t.tStart t.tEnd t.sample).2 ts
          from rfl, iha, pa]
      rfl

lemma mem_addChecked {hist : List Decision} {now : ℚ} {ds : List Decision}
    {c : Option Decision} {d : Decision} (h : d ∈ addChecked hist now ds c) :
    d ∈ ds ∨ (c = some d ∧ isDuplicate hist d now = false) := by
  unfold addChecked at h
  cases c with
  | none => exact Or.inl h
  | some a =>
    dsimp only at h
    by_cases hdup : isDuplicate hist a now = true
    · rw [if_pos hdup] at h
      exact Or.inl h
    · rw [if_neg hdup] at h
      rcases List.mem_append.mp h with h1 | h1
      · exact Or.inl h1
      · have hda : d = a := List.mem_singleton.mp h1
        subst hda
        exact Or.inr ⟨rfl, by simpa using hdup⟩

lemma mem_addUnchecked {ds : List Decision} {c : Option Decision}
    {d : Decision} (h : d ∈ addUnchecked ds c) :
    d ∈ ds ∨ c = some d := by
  unfold addUnchecked at h
  cases c with
  | none => exact Or.inl h
  | some a =>
    dsimp only at h
    rcases List.mem_append.mp h with h1 | h1
    · exact Or.inl h1
    · have hda : d = a := List.mem_singleton.mp h1
      subst hda
      exact Or.inr rfl

lemma handleVo2_action {now : ℚ} {pd : ProcData} {st : CoachState}
    {d : Decision} (h : (handleVo2Changes now pd st).1 = some d) :
    d.action = ActionType.ADJUST_PLAN := by
  unfold handleVo2Changes at h
  repeat' split at h
  all_goals simp_all
  all_goals rw [← h]

lemma handleNutrition_action {now : ℚ} {pd : ProcData} {d : Decision}
    (h : handleNutrition now pd = some d) :
    d.action = ActionType.NUTRITION := by
  unfold handleNutrition at h
  split at h
  · simp only [Option.some.injEq] at h
    rw [← h]
  · exact Option.noConfusion h

/-! ### Claim theorems -/

/-- C1 (counterexample): on a fresh engine, the very first tick with heart
rate 205 BPM sets `anomaly_detected = true` (rule `hr > 200`, line 375),
and because `_assess_health_risk` checks the anomaly flag first (line 526)
the risk level is "HIGH", not "CRITICAL" — refuting the claim that
`hr > 190` with normal spo2 yields CRITICAL regardless of the anomaly
flag, and the scenario that 205 BPM yields CRITICAL from tick 1. -/
theorem hr205_first_tick_is_high_not_critical :
    (processRealtime cfg0 (engineInit 30 70) 0 0 sample205).1.anomaly_detected
        = true ∧
    (processRealtime cfg0 (engineInit 30 70) 0 0 sample205).1.health_risk_level
        = "HIGH" ∧
    (processRealtime cfg0 (engineInit 30 70) 0 0 sample205).1.health_risk_level
        ≠ "CRITICAL" := by
  refine ⟨by decide, by decide, by decide⟩

/-- C1 (amended): when the anomaly flag is false, `_assess_health_risk`
returns CRITICAL for every heart rate above 190, regardless of the HRV
features and of spo2 (lines 530-531 fire before every later check). -/
theorem risk_critical_above_190 (hr : Int) (hrv : Option HRVFeatures)
    (spo2 : Option Int) (h : 190 < hr) :
    assessHealthRisk hr hrv false spo2 = HealthRiskLevel.CRITICAL := by
  unfold assessHealthRisk
  rw [if_neg (by simp), if_pos (Or.inl h)]

/-- C1 (witness): the amended theorem applied at hr = 205. -/
theorem risk_critical_above_190_witness :
    assessHealthRisk 205 none false none = HealthRiskLevel.CRITICAL :=
  risk_critical_above_190 205 none none (by norm_num)

/-- C3: the heart-rate buffer of a fresh engine fed 60 ticks of heart rate
0 is sixty zeros, and on that buffer the numpy-absent fallback branch of
`_calculate_hrv_advanced` raises ZeroDivisionError computing
`60000 / hr` (line 310) instead of returning a record — the pipeline
crashes on hr = 0, contrary to the claim and to §7 of the spec. -/
theorem fallback_hrv_zero_division :
    (runState cfg0 (engineInit 30 70) (List.replicate 60 tick0)).hr_buffer
        = List.replicate 60 (0 : Int) ∧
    calculateHrvFallback (List.replicate 60 (0 : Int))
        = Except.error "ZeroDivisionError" := by
  constructor
  · have h := (runState_buffers cfg0 (List.replicate 60 tick0)
      (engineInit 30 70)).1
    rw [show (engineInit 30 70).hr_buffer = [] from rfl, foldl_pushCap_nil,
        List.map_replicate] at h
    rw [h]
    simp [lastN, tick0]
  · rfl

/-- C4: after any sequence of `process_realtime` calls on a fresh engine,
each buffer holds exactly the most recent pushes in arrival order (the
`lastN` of the pushed sequence, so the oldest entries are evicted first),
and the lengths are bounded by 300 / 60 / 60. -/
theorem buffers_bounded_fifo (cfg : Config) (age : Int) (w : ℚ)
    (ts : List Tick) :
    (runState cfg (engineInit age w) ts).hr_buffer
        = lastN 300 (ts.map fun t => t.sample.hr) ∧
    (runState cfg (engineInit age w) ts).step_buffer
        = lastN 60 (ts.map fun t => t.sample.steps) ∧
    (runState cfg (engineInit age w) ts).accel_buffer
        = lastN 60 (ts.map fun t => (t.sample.ax, t.sample.ay, t.sample.az)) ∧
    (runState cfg (engineInit age w) ts).hr_buffer.length ≤ 300 ∧
    (runState cfg (engineInit age w) ts).step_buffer.length ≤ 60 ∧
    (runState cfg (engineInit age w) ts).accel_buffer.length ≤ 60 := by
  obtain ⟨hh, hs, ha⟩ := runState_buffers cfg ts (engineInit age w)
  have eh : (engineInit age w).hr_buffer = [] := rfl
  have es : (engineInit age w).step_buffer = [] := rfl
  have ea : (engineInit age w).accel_buffer = [] := rfl
  rw [eh] at hh
  rw [es] at hs
  rw [ea] at ha
  rw [foldl_pushCap_nil] at hh hs ha
  exact ⟨hh, hs, ha,
    hh ▸ length_lastN 300 _, hs ▸ length_lastN 60 _, ha ▸ length_lastN 60 _⟩

/-- C5: `_calculate_hrv_advanced` returns no result exactly when the
heart-rate buffer holds fewer than 60 samples, and a concrete
`HRVFeatures` record whenever it holds 60 or more (line 275). -/
theorem hrv_none_iff_insufficient (cfg : Config) (buf : List Int) :
    calculateHrv cfg buf = none ↔ buf.length < 60 := by
  unfold calculateHrv
  split_ifs with h
  · simp [h]
  · simp [h]

/-- C6: `_classify_activity` is the first-match decision table of the spec
over (heart rate, step rate, acceleration magnitude): the code's table
over the squared magnitude coincides with the spec's table over the
magnitude itself, and the code computes the step rate from the step window
(newest minus oldest, 0 below two entries) and the squared Euclidean norm
of the three axes. -/
theorem activity_matches_spec_table (mag : ℚ) (hmag : 0 ≤ mag)
    (step_rate hr : Int) (st : EngineState) (ax ay az : ℚ) :
    classifyTable (mag ^ 2) step_rate hr = classifyTableSpec mag step_rate hr ∧
    classifyActivity st hr ax ay az
      = classifyTable (ax ^ 2 + ay ^ 2 + az ^ 2) (stepRate st.step_buffer) hr := by
  constructor
  · unfold classifyTable classifyTableSpec
    have h1 : mag ^ 2 < 9/4 ↔ mag < 3/2 := by
      have h := sq_lt_sq_iff_of_nonneg hmag (by norm_num : (0:ℚ) ≤ 3/2)
      rw [show ((3:ℚ)/2) ^ 2 = 9/4 by norm_num] at h
      exact h
    have h2 : mag ^ 2 < 4 ↔ mag < 2 := by
      have h := sq_lt_sq_iff_of_nonneg hmag (by norm_num : (0:ℚ) ≤ 2)
      rw [show ((2:ℚ)) ^ 2 = 4 by norm_num] at h
      exact h
    simp only [h1, h2]
  · rfl

/-- C6 (witness): the equivalence applied at magnitude 1, step rate 0,
heart rate 55 (the sleeping row). -/
theorem activity_matches_spec_table_witness :
    (classifyTable ((1:ℚ) ^ 2) 0 55 = classifyTableSpec 1 0 55 ∧
      classifyActivity (engineInit 30 70) 55 1 0 0
        = classifyTable ((1:ℚ) ^ 2 + 0 ^ 2 + 0 ^ 2)
            (stepRate (engineInit 30 70).step_buffer) 55) ∧
    classifyTableSpec 1 0 55 = ActivityType.sleeping :=
  ⟨activity_matches_spec_table 1 (by norm_num) 0 55 (engineInit 30 70) 1 0 0,
   by norm_num [classifyTableSpec]⟩

/-- C7: `_estimate_vo2max` returns the baseline value and leaves the state
unchanged outside moderate/intense exercise; during exercise with
`resting_hr > 0 < hr - resting_hr` it returns `15.3 * max_hr / resting_hr`
and writes it into the baseline exactly when the value lies strictly
between 20 and 80. -/
theorem vo2max_formula_and_update (st : EngineState) (hr steps : Int)
    (act : ActivityType) :
    (¬ (act = ActivityType.moderate_exercise
          ∨ act = ActivityType.intense_exercise) →
      estimateVo2max st hr act steps = (st.baseline.vo2_max, st)) ∧
    ((act = ActivityType.moderate_exercise
          ∨ act = ActivityType.intense_exercise) →
      0 < st.baseline.resting_hr → st.baseline.resting_hr < hr →
      (estimateVo2max st hr act steps).1
          = some (153/10 * ((st.baseline.max_hr : ℚ) / (st.baseline.resting_hr : ℚ))) ∧
      (estimateVo2max st hr act steps).2.baseline.vo2_max
          = (if 20 < 153/10 * ((st.baseline.max_hr : ℚ) / (st.baseline.resting_hr : ℚ))
               ∧ 153/10 * ((st.baseline.max_hr : ℚ) / (st.baseline.resting_hr : ℚ)) < 80
             then some (153/10 * ((st.baseline.max_hr : ℚ) / (st.baseline.resting_hr : ℚ)))
             else st.baseline.vo2_max)) := by
  constructor
  · intro h
    unfold estimateVo2max
    rw [if_pos h]
  · intro h h1 h2
    unfold estimateVo2max
    rw [if_neg (not_not_intro h)]
    dsimp only
    rw [if_pos ⟨h1, h2⟩]
    refine ⟨rfl, ?_⟩
    split_ifs with h3
    · rfl
    · rfl

/-- C7 (witness): during moderate exercise at hr = 140 on the default
baseline (resting 70, max 190), the estimate is 15.3 * 190/70 = 2907/70
(≈ 41.5), which lies in (20, 80) and is written into the baseline. -/
theorem vo2max_formula_and_update_witness :
    (estimateVo2max (engineInit 30 70) 140 ActivityType.moderate_exercise 0).1
        = some (2907/70) ∧
    (estimateVo2max (engineInit 30 70) 140 ActivityType.moderate_exercise 0).2.baseline.vo2_max
        = some (2907/70) := by
  have h := (vo2max_formula_and_update (engineInit 30 70) 140 0
    ActivityType.moderate_exercise).2 (Or.inl rfl) (by decide) (by decide)
  refine ⟨?_, ?_⟩
  · rw [h.1]
    norm_num [engineInit]
  · rw [h.2]
    norm_num [engineInit]

/-- C8 (counterexample): a negative heart rate (accepted input per §4.1)
makes `hr_percent` negative — `_get_hr_zone` computes `hr / max_hr * 100`
without clamping (line 506), refuting "hr_zone.hr_percent ≥ 0 regardless
of input values". -/
theorem hr_percent_negative_on_negative_hr :
    (getHrZone (engineInit 30 70) (-1)).hr_percent < 0 := by
  norm_num [getHrZone, engineInit]

/-- C8 (amended): the stress index is always clamped to [0, 100] and the
fatigue score to [0, 1] (for arbitrary inputs, including out-of-range
ones), while `hr_zone.hr_percent` is nonnegative provided the heart rate
is nonnegative (and `max_hr` positive). -/
theorem metric_ranges (sdnnSq rmssdSq : ℚ) (lfhf : Option ℚ)
    (st : EngineState) (hr : Int) (hrv : Option HRVFeatures)
    (act : ActivityType) :
    (0 ≤ calcStressIndex sdnnSq rmssdSq lfhf
        ∧ calcStressIndex sdnnSq rmssdSq lfhf ≤ 100) ∧
    (0 ≤ predictFatigue st hr hrv act ∧ predictFatigue st hr hrv act ≤ 1) ∧
    (0 ≤ hr → 0 < st.baseline.max_hr → 0 ≤ (getHrZone st hr).hr_percent) := by
  refine ⟨⟨?_, ?_⟩, ⟨?_, ?_⟩, ?_⟩
  · unfold calcStressIndex
    exact le_max_left 0 _
  · unfold calcStressIndex
    dsimp only
    exact max_le (by norm_num) (min_le_left _ _)
  · unfold predictFatigue
    exact le_max_left 0 _
  · unfold predictFatigue
    dsimp only
    exact max_le (by norm_num) (min_le_left _ _)
  · intro h1 h2
    unfold getHrZone
    dsimp only
    have hp : 0 ≤ (hr : ℚ) / (st.baseline.max_hr : ℚ) * 100 := by
      apply mul_nonneg
      · apply div_nonneg
        · exact_mod_cast h1
        · exact_mod_cast h2.le
      · norm_num
    split_ifs <;> exact hp

/-- C8 (witness): the ranges at a concrete nonnegative input. -/
theorem metric_ranges_witness :
    0 ≤ (getHrZone (engineInit 30 70) 100).hr_percent :=
  (metric_ranges 0 0 none (engineInit 30 70) 100 none
    ActivityType.resting).2.2 (by norm_num) (by decide)

/-- C9: the pipeline is a pure function of the construction parameters and
the tick stream (samples together with their clock readings; the seeded
outlier model and the spectral estimator enter as the fixed `Config`), so
two fresh engines given identical parameters and identical streams produce
identical `ProcessedHealthData` sequences, field for field. -/
theorem pipeline_deterministic (cfg : Config) (age1 age2 : Int) (w1 w2 : ℚ)
    (ts1 ts2 : List Tick) (hage : age1 = age2) (hw : w1 = w2)
    (hts : ts1 = ts2) :
    runPipeline cfg (engineInit age1 w1) ts1
      = runPipeline cfg (engineInit age2 w2) ts2 := by
  rw [hage, hw, hts]

/-- C9 (witness): two identical two-tick runs. -/
theorem pipeline_deterministic_witness :
    runPipeline cfg0 (engineInit 30 70) [tickA, tickA]
      = runPipeline cfg0 (engineInit 30 70) [tickA, tickA] :=
  pipeline_deterministic cfg0 30 30 70 70 [tickA, tickA] [tickA, tickA]
    rfl rfl rfl

/-- C10: one `process_realtime` call never changes `user_age`,
`user_weight`, `max_hr`, nor the baseline fields `resting_hr`, `max_hr`
and `avg_steps_per_day`; the only state it may modify is the three
buffers, the anomaly-training state and the baseline `vo2_max`. -/
theorem process_realtime_frame (cfg : Config) (st : EngineState)
    (t1 t2 : ℚ) (s : Sample) :
    (processRealtime cfg st t1 t2 s).2.user_age = st.user_age ∧
    (processRealtime cfg st t1 t2 s).2.user_weight = st.user_weight ∧
    (processRealtime cfg st t1 t2 s).2.max_hr = st.max_hr ∧
    (processRealtime cfg st t1 t2 s).2.baseline.resting_hr
        = st.baseline.resting_hr ∧
    (processRealtime cfg st t1 t2 s).2.baseline.max_hr = st.baseline.max_hr ∧
    (processRealtime cfg st t1 t2 s).2.baseline.avg_steps_per_day
        = st.baseline.avg_steps_per_day := by
  unfold processRealtime
  dsimp only
  have h1 := detect_preserves cfg
    (updateBuffers st s.hr s.steps (s.ax, s.ay, s.az)) s.hr
    (calculateHrv cfg (updateBuffers st s.hr s.steps (s.ax, s.ay, s.az)).hr_buffer)
    s.spo2
  have h2 := vo2_preserves
    (detectHealthAnomaly cfg (updateBuffers st s.hr s.steps (s.ax, s.ay, s.az))
      s.hr
      (calculateHrv cfg (updateBuffers st s.hr s.steps (s.ax, s.ay, s.az)).hr_buffer)
      s.spo2).2
    s.hr
    (classifyActivity (updateBuffers st s.hr s.steps (s.ax, s.ay, s.az))
      s.hr s.ax s.ay s.az)
    s.steps
  refine ⟨?_, ?_, ?_, ?_, ?_, ?_⟩
  · rw [h2.2.2.2.1, h1.2.2.2.1]; rfl
  · rw [h2.2.2.2.2.1, h1.2.2.2.2.1]; rfl
  · rw [h2.2.2.2.2.2.1, h1.2.2.2.2.2.1]; rfl
  · rw [h2.2.2.2.2.2.2.2.1, h1.2.2.2.2.2.2]; rfl
  · rw [h2.2.2.2.2.2.2.2.2.1, h1.2.2.2.2.2.2]; rfl
  · rw [h2.2.2.2.2.2.2.2.2.2, h1.2.2.2.2.2.2]; rfl

/-- C2 (counterexample): one `make_decisions` call on data with high
fatigue, stress 85 during intense exercise and HR zone 5 emits three
RECOMMENDATION decisions with the same timestamp — two decisions of the
same action type far less than the cooldown window apart, refuting the
claim for decisions of the same call (the history used by
`_is_duplicate` is only extended after all handlers ran, line 164). -/
theorem same_call_emits_same_action_twice :
    ((makeDecisions 1000 pdC coachInit).1.map fun d => d.action)
        = [ActionType.RECOMMENDATION, ActionType.RECOMMENDATION,
           ActionType.RECOMMENDATION] ∧
    ((makeDecisions 1000 pdC coachInit).1.map fun d => d.timestamp)
        = [1000, 1000, 1000] := by
  constructor <;>
    norm_num [makeDecisions, cleanOldDecisions, addChecked, addUnchecked,
      isDuplicate, handleAnomaly, handleFatigue, handleStress,
      handleVo2Changes, handleNutrition, handleHrZone, pdC, coachInit,
      decisionCooldown]

/-- C2 (amended): every ALERT or RECOMMENDATION emitted by
`make_decisions` has no same-action decision in the user's stored history
within the cooldown window at call time (so across successive calls these
action types are deduplicated, and once the window has elapsed a repeat
condition may re-emit); decisions emitted within one call are not checked
against each other, and ADJUST_PLAN / NUTRITION candidates bypass the
check entirely. -/
theorem checked_actions_respect_cooldown (now : ℚ) (pd : ProcData)
    (st : CoachState) (d : Decision)
    (hmem : d ∈ (makeDecisions now pd st).1)
    (hact : d.action = ActionType.ALERT
        ∨ d.action = ActionType.RECOMMENDATION) :
    ∀ x ∈ st.history, x.action = d.action →
      decisionCooldown ≤ now - x.timestamp := by
  intro x hx hxact
  by_contra hlt
  push_neg at hlt
  have hxmem : x ∈ cleanOldDecisions now st.history := by
    unfold cleanOldDecisions
    refine List.mem_filter.mpr ⟨hx, ?_⟩
    simp only [decide_eq_true_eq]
    have hc : (0:ℚ) < decisionCooldown := by norm_num [decisionCooldown]
    linarith
  have hdup : isDuplicate (cleanOldDecisions now st.history) d now = true := by
    unfold isDuplicate
    rw [List.any_eq_true]
    refine ⟨x, hxmem, ?_⟩
    simp only [decide_eq_true_eq]
    exact ⟨hxact, hlt⟩
  unfold makeDecisions at hmem
  dsimp only at hmem
  rcases mem_addChecked hmem with h5 | ⟨_, hnd⟩
  · rcases mem_addUnchecked h5 with h4 | hnut
    · rcases mem_addUnchecked h4 with h3 | hvo2
      · rcases mem_addChecked h3 with h2 | ⟨_, hnd⟩
        · rcases mem_addChecked h2 with h1 | ⟨_, hnd⟩
          · rcases mem_addChecked h1 with h0 | ⟨_, hnd⟩
            · simp at h0
            · rw [hnd] at hdup
              exact Bool.false_ne_true hdup
          · rw [hnd] at hdup
            exact Bool.false_ne_true hdup
        · rw [hnd] at hdup
          exact Bool.false_ne_true hdup
      · have ha := handleVo2_action hvo2
        rw [ha] at hact
        rcases hact with h | h <;> exact ActionType.noConfusion h
    · split at hnut
      · have ha := handleNutrition_action hnut
        rw [ha] at hact
        rcases hact with h | h <;> exact ActionType.noConfusion h
      · exact Option.noConfusion hnut
  · rw [hnd] at hdup
    exact Bool.false_ne_true hdup

/-- C2 (witness): with one RECOMMENDATION aged 70 s in the history (past
the 60 s cooldown), the fatigue handler re-emits a RECOMMENDATION, and the
theorem yields the cooldown bound for the stored entry. -/
theorem checked_actions_respect_cooldown_witness :
    decisionCooldown ≤ (1000 : ℚ) - 930 :=
  checked_actions_respect_cooldown 1000 pdW stW dW
    (by
      have h : (makeDecisions 1000 pdW stW).1 = [dW] := by
        norm_num [makeDecisions, cleanOldDecisions, addChecked, addUnchecked,
          isDuplicate, handleAnomaly, handleFatigue, handleStress,
          handleVo2Changes, handleNutrition, handleHrZone, pdW, stW, dW,
          decisionCooldown]
      rw [h]
      exact List.mem_singleton.mpr rfl)
    (Or.inr rfl)
    { action := ActionType.RECOMMENDATION, priority := "HIGH",
      timestamp := 930 }
    (by simp [stW])
    rfl

end HealthSpec
